import Mathlib

/-!
# A shallow embedding of the single-file TCP file server and its client

This file embeds the parts of `socketserver_server-0.3.py` and
`client-folder/socketserver_client-0.3.py` that carry the design content:
the wire-message codec, the byte-range validator, the effective-size
computation, the chunked send loop with its progress (decile) printing, the
per-connection handler state machine, and the client's download loop.

Modelling conventions:
* Wire messages arrive as the already-split field list
  (`str(sock.recv(...)).split(SEP)` in the source).  Python's `split` on the
  non-empty separator `"<SEPARATOR>"` never returns an empty list and maps the
  empty string to `[""]`, so the empty wire message is modelled as `[""]`.
* Python `int` values are `ℤ`; byte counts and lengths are `ℕ` where the
  source guarantees non-negativity (file sizes from `stat`, chunk lengths).
* Python float arithmetic in the progress computation is modelled as exact
  arithmetic; `x - (x % 10)` for a non-negative value is floor to the nearest
  multiple of ten.
* Uncaught Python exceptions (`IndexError`, `ValueError`, the
  `UnboundLocalError` on `process_status`) are modelled with `Except`.
* The filesystem under `FILE_DIR` is a map from filename to content length;
  file contents themselves are irrelevant to every claim, only lengths cross
  the embedding boundary (reads and writes are length-accounted).
-/

namespace FileServer

/-- The field separator `SEP` of wire messages (identical in both peers). -/
def SEP : String := "<SEPARATOR>"

/-- The chunk size `BUFFER_SIZE` used for file and socket transfers. -/
def BUFFER_SIZE : ℕ := 4096

/-- Model of Python's builtin `int(str)` on the strings this protocol can
carry: optional surrounding whitespace, an optional single sign, then one or
more decimal digits; every other string raises `ValueError`, modelled as
`none`.  (Pythonic extras such as underscores or non-ASCII digits are not
modelled; no peer produces them.) -/
def pyIntChars (cs : List Char) : Option ℤ :=
  let t := ((cs.dropWhile Char.isWhitespace).reverse.dropWhile
    Char.isWhitespace).reverse
  let neg : Bool := t.headD ' ' = '-'
  let core := if t.headD ' ' = '-' || t.headD ' ' = '+' then t.tail else t
  if core.isEmpty then none
  else if core.all Char.isDigit then
    let n : ℕ := core.foldl (fun acc c => acc * 10 + (c.toNat - 48)) 0
    if neg then some (-(n : ℤ)) else some (n : ℤ)
  else none

/-- Python's `int` applied to a wire-message field. -/
def pyInt (s : String) : Option ℤ := pyIntChars s.data

/-- The server's decoding of the start-byte field of a `g` message
(`socketserver_server-0.3.py` lines 114–118): `int(...)` with a caught
`ValueError` defaulting to `0`. -/
def decodeStartByte (s : String) : ℤ := (pyInt s).getD 0

/-- The server's decoding of the end-byte field of a `g` message
(`socketserver_server-0.3.py` lines 119–123): `int(...)` with a caught
`ValueError` defaulting to `-1` ("use -1 as last byte"). -/
def decodeEndByte (s : String) : ℤ := (pyInt s).getD (-1)

/-- The validator `byte_bound_check` (`socketserver_server-0.3.py` lines 338–369): the
elif-chain validating the requested byte range against the file size.  The
negative-end check present in the source is commented out there and is
therefore absent here as well. -/
def byteBoundCheck (startByte endByte fileSize : ℤ) : Bool :=
  if startByte > fileSize then false
  else if endByte > fileSize then false
  else if startByte < 0 then false
  else if endByte < startByte ∧ endByte ≠ -1 then false
  else true

/-- The effective-size computation `calc_send_filesize`
(`socketserver_server-0.3.py` lines 246–259):
`to_subtract = start_byte`, plus `file_size - end_byte` when
`end_byte > start_byte`; the effective size is `file_size - to_subtract`. -/
def calcSendFilesize (fileSize startByte endByte : ℤ) : ℤ :=
  let toSubtract := startByte + (if endByte > startByte then fileSize - endByte else 0)
  fileSize - toSubtract

/-- The client's rendering of an optional numeric argument into a request
field: Python string interpolation prints `None` for an unset argument. -/
def pyStr (o : Option ℤ) : String :=
  match o with
  | none => "None"
  | some n => toString n

/-- The download branch of `construct_client_request`
(`socketserver_client-0.3.py` line 84): the f-string
`g<SEP>fn<SEP>start_b<SEP>end_b`. -/
def constructDownloadRequest (startB endB : Option ℤ) (fn : String) : String :=
  "g" ++ SEP ++ fn ++ SEP ++ pyStr startB ++ SEP ++ pyStr endB

/-! ## TransferEngine: the server's `send_file` loop -/

/-- One Python file read of `k` bytes at offset `pos` in a file of length
`flen`: the number of bytes returned (`f.read(k)` returns at most the bytes
remaining before end of file; a seek past the end yields empty reads). -/
def fread (flen pos k : ℕ) : ℕ := min k (flen - pos)

/-- The progress-printing inner loop of `send_file`
(`socketserver_server-0.3.py` lines 185–188 and 197–201):
`while percent_printed < percent_sent: print(percent_printed); += 10`.
Returns the list of printed percentages and the final `percent_printed`. -/
def emitDeciles (printed target : ℕ) : List ℕ × ℕ :=
  if printed < target then
    let r := emitDeciles (printed + 10) target
    (printed :: r.1, r.2)
  else ([], printed)
termination_by target - printed
decreasing_by omega

/-- The percentage computation after a chunk
(`socketserver_server-0.3.py` lines 179–184):
`percent_sent = tot / total * 100; percent_sent -= percent_sent % 10`, with a
caught `ZeroDivisionError` setting it to `100`.  For non-negative exact
arithmetic, `x - x % 10` is `10 * ⌊x / 10⌋`. -/
def pctDecile (tot total : ℕ) : ℕ :=
  if total = 0 then 100 else 10 * (tot * 10 / total)

/-- State of the `send_file` chunk loop: file read position, `bytes_left`,
`tot_bytes_sent`, `percent_printed`, the length of the pending `bytes_read`,
the progress percentages printed so far, and the total file bytes written to
the connection. -/
structure LoopSt where
  pos : ℕ
  left : ℕ
  tot : ℕ
  printed : ℕ
  pending : ℕ
  notifs : List ℕ
  sent : ℕ
deriving Repr, DecidableEq

/-- The `while bytes_read:` loop of `send_file`
(`socketserver_server-0.3.py` lines 172–194).  `total` is `self.file_size`
after `calc_send_filesize` (the effective size), `flen` the on-disk length of
the file being read. -/
def sendLoop (total flen : ℕ) (st : LoopSt) : LoopSt :=
  if st.pending = 0 then st
  else
    let sent := st.sent + st.pending
    let tot := st.tot + (if total < BUFFER_SIZE then total else BUFFER_SIZE)
    let e := emitDeciles st.printed (pctDecile tot total)
    if BUFFER_SIZE ≤ st.left then
      sendLoop total flen
        ⟨st.pos + fread flen st.pos BUFFER_SIZE, st.left - BUFFER_SIZE, tot,
          e.2, fread flen st.pos BUFFER_SIZE, st.notifs ++ e.1, sent⟩
    else
      sendLoop total flen
        ⟨st.pos + fread flen st.pos st.left, 0, tot,
          e.2, fread flen st.pos st.left, st.notifs ++ e.1, sent⟩
termination_by st.left + st.pending
decreasing_by
  · simp only [fread]
    omega
  · simp only [fread]
    omega

/-- Result of `send_file`: the total number of file bytes written to the
connection and the progress percentages printed, in order. -/
structure SendOut where
  sent : ℕ
  notifs : List ℕ
deriving Repr, DecidableEq

/-- The sender `send_file` (`socketserver_server-0.3.py` lines 143–207).  `total` is
`self.file_size` as set by `calc_send_filesize`, `startByte` the validated
start byte, `flen` the on-disk file length.  After seeking to the start byte
the first chunk is read (lines 166–171), the chunk loop runs, and the
trailing code (lines 196–202) tops the printed progress up to 100 and then
unconditionally prints the final `Sent 100%` line. -/
def sendFile (total startByte flen : ℕ) : SendOut :=
  let first :=
    if BUFFER_SIZE ≥ total then (fread flen startByte total, 0)
    else (fread flen startByte BUFFER_SIZE, total - BUFFER_SIZE)
  let st := sendLoop total flen
    ⟨startByte + first.1, first.2, 0, 0, first.1, [], 0⟩
  let post := emitDeciles st.printed 100
  ⟨st.sent, st.notifs ++ post.1 ++ [100]⟩

/-! ## ConnectionHandler: the per-connection state machine -/

/-- The server-side filesystem under `FILE_DIR`: maps a filename to the
length of its content when a regular file of that name exists
(`file_exists` plus `stat().st_size`). -/
structure FS where
  files : String → Option ℕ

/-- The filesystem after `receive_file` wrote `len` received bytes to `fn`
(`open(..., 'wb')` then writing every received chunk). -/
def FS.write (fs : FS) (fn : String) (len : ℕ) : FS :=
  ⟨fun n => if n = fn then some len else fs.files n⟩

/-- The messages the server writes to the connection: the `s`/`g`/`e`/`d`
tagged responses and the raw file bytes streamed by `send_file` (recorded by
length). -/
inductive Msg where
  | readyToReceive (fn : String) (declaredSize : ℤ)
  | readyToSend (effectiveSize : ℤ)
  | fileData (len : ℕ)
  | error (text : String)
  | done (text : String)
deriving Repr, DecidableEq

/-- True exactly for the two terminal response tags (`d`/`e`). -/
def Msg.isFinal : Msg → Bool
  | .done _ => true
  | .error _ => true
  | _ => false

/-- The uncaught Python exceptions the handler can die of: `IndexError`
(indexing an empty string or a too-short field list), `ValueError`
(`int(...)` outside any `try`), and the `UnboundLocalError` on returning the
never-assigned `process_status`. -/
inductive PyErr where
  | indexError
  | valueError
  | unboundLocal
deriving Repr, DecidableEq

/-- Outcome of `process_init_cmd`: the messages sent on the socket so far,
the filesystem afterwards, and whether `receive_file` was invoked. -/
structure ProcOut where
  msgs : List Msg
  fs : FS
  receiveInvoked : Bool

/-- List indexing as in Python: out of range raises `IndexError`. -/
def idx (fields : List String) (i : ℕ) : Except PyErr String :=
  match fields.get? i with
  | some s => .ok s
  | none => .error .indexError

/-- The dispatcher `get_init_cmd` (`socketserver_server-0.3.py` lines 279–297) after the
receive-and-split: `init_cmd = fields[0]`, then dispatch on `init_cmd[0]`
(an `IndexError` when the first field is empty, i.e. on the empty wire
message); a first character other than `w`/`g` returns `False` (here
`none`). -/
def getInitCmd (fields : List String) : Except PyErr (Option (List String)) :=
  let initCmd := (fields.headD "").data
  match initCmd with
  | [] => .error .indexError
  | c :: _ =>
    if c = 'w' then .ok (some fields)
    else if c = 'g' then .ok (some fields)
    else .ok none

/-- The command processor `process_init_cmd` (`socketserver_server-0.3.py`
lines 83–141) together
with the flows it drives (`receive_ready_check`, `receive_file`,
`send_ready_check`, `calc_send_filesize`, `send_file`).  `clientBytes` is
the number of payload bytes the client goes on to send in the upload flow.
Returns `process_status` and the observable outcome; field access and the
unprotected `int(fields[2])` of the upload branch can raise, and a first
field that merely begins with `w`/`g` leaves `process_status` unassigned
(`UnboundLocalError`). -/
def processInitCmd (fs : FS) (fields : List String) (clientBytes : ℕ) :
    Except PyErr (Bool × ProcOut) :=
  let initCmd := fields.headD ""
  if initCmd = "w" then do
    let fn ← idx fields 1
    let szs ← idx fields 2
    match pyInt szs with
    | none => .error .valueError
    | some declaredSize =>
      -- receive_ready_check (lines 300–315); on failure process_init_cmd
      -- discards its response and sends the ON SERVER variant (line 108)
      if (fs.files fn).isSome then
        .ok (false, ⟨[.error "FILE EXISTS ON SERVER. RENAME FILE."], fs, false⟩)
      else
        .ok (true, ⟨[.readyToReceive fn declaredSize],
          fs.write fn clientBytes, true⟩)
  else if initCmd = "g" then do
    let fn ← idx fields 1
    let sbs ← idx fields 2
    let ebs ← idx fields 3
    let startByte := decodeStartByte sbs
    let endByte := decodeEndByte ebs
    -- send_ready_check (lines 210–243)
    match fs.files fn with
    | none =>
      .ok (false, ⟨[.error (fn ++ " Does not exist on server.")], fs, false⟩)
    | some flen =>
      if byteBoundCheck startByte endByte (flen : ℤ) then
        let eff := calcSendFilesize (flen : ℤ) startByte endByte
        let out := sendFile eff.toNat startByte.toNat flen
        .ok (true, ⟨[.readyToSend eff, .fileData out.sent], fs, false⟩)
      else
        .ok (false, ⟨[.error "Provided byte bounds are illogical"], fs, false⟩)
  else .error .unboundLocal

/-- The per-connection entry point `handle` (`socketserver_server-0.3.py`
lines 57–80) on the received and
split initial message: dispatches through `get_init_cmd` and
`process_init_cmd`, then sends the single final response (`d` on success,
`e` otherwise) and closes.  The result carries every message sent on the
connection in order, the final filesystem, and whether `receive_file` ran;
an uncaught exception (no final response sent) is the `.error` case. -/
def handle (fs : FS) (fields : List String) (clientBytes : ℕ) :
    Except PyErr (List Msg × FS × Bool) :=
  match getInitCmd fields with
  | .error e => .error e
  | .ok none => .ok ([.error "Unknown Initial Command"], fs, false)
  | .ok (some flds) =>
    match processInitCmd fs flds clientBytes with
    | .error e => .error e
    | .ok (true, out) =>
      .ok (out.msgs ++ [.done "PROCESS COMPLETE"], out.fs, out.receiveInvoked)
    | .ok (false, out) =>
      .ok (out.msgs ++ [.error "Something went wrong."], out.fs, out.receiveInvoked)

/-- The well-formed initial messages: a non-empty first field that either
carries an unknown tag character, or is exactly `w` with at least three
fields and a parseable size, or is exactly `g` with at least four fields.
On these, `handle` completes without an uncaught exception. -/
def goodFields (fields : List String) : Bool :=
  match fields with
  | [] => false
  | c :: rest =>
    if c = "" then false
    else if c = "w" then
      match rest with
      | _ :: szs :: _ => (pyInt szs).isSome
      | _ => false
    else if c = "g" then 3 ≤ rest.length
    else !(c.data.headD ' ' = 'w' || c.data.headD ' ' = 'g')

/-- The empty filesystem (no hosted files). -/
def emptyFS : FS := ⟨fun _ => none⟩

/-- A filesystem hosting exactly one file `fn` of length `len`. -/
def singleFS (fn : String) (len : ℕ) : FS :=
  ⟨fun n => if n = fn then some len else none⟩

/-! ## ClientDriver: the client's download loop -/

/-- One client `sock.recv(k)`, with the data the connection still has to
offer modelled as a list of chunk lengths: the next offer is delivered,
truncated to the requested length; an exhausted stream (peer closed) returns
zero bytes. -/
def recvN (offers : List ℕ) (k : ℕ) : ℕ × List ℕ :=
  match offers with
  | [] => (0, [])
  | o :: rest => (min o k, rest)

/-- The client's `while bytes_read:` download loop
(`socketserver_client-0.3.py` lines 168–175): write the pending chunk, then
request `bytes_left` more when fewer than `BUFFER_SIZE` remain, else a full
buffer.  Returns the total number of bytes written to the local file. -/
def clientDownloadLoop (left pending written : ℕ) (offers : List ℕ) : ℕ :=
  if pending = 0 then written
  else
    match offers with
    | [] => written + pending
    | o :: rest =>
      if left < BUFFER_SIZE then
        clientDownloadLoop 0 (min o left) (written + pending) rest
      else
        clientDownloadLoop (left - BUFFER_SIZE) (min o BUFFER_SIZE)
          (written + pending) rest

/-- The client's download branch (`socketserver_client-0.3.py` lines
156–178): `file_size` is the size declared in the server's ready-to-send
response; the first `recv` asks for `file_size` bytes when a buffer
suffices, else a full buffer, and the loop writes until the stream ends. -/
def clientDownload (fileSize : ℕ) (offers : List ℕ) : ℕ :=
  let first :=
    if BUFFER_SIZE ≥ fileSize then recvN offers fileSize
    else recvN offers BUFFER_SIZE
  let left := if BUFFER_SIZE ≥ fileSize then 0 else fileSize - BUFFER_SIZE
  clientDownloadLoop left first.1 0 first.2

/-- The field list the server obtains from a download request built by
`construct_client_request`: splitting `constructDownloadRequest` on `SEP`
recovers exactly these four fields, since neither the tag, the filename
(assumed separator-free) nor a rendered numeric argument contains `SEP`. -/
def downloadRequestFields (startB endB : Option ℤ) (fn : String) : List String :=
  ["g", fn, pyStr startB, pyStr endB]

/-! ## Helper lemmas -/

set_option maxRecDepth 40000

theorem pyInt_NoneStr : pyInt "None" = none := by rfl

theorem sendFile_total_zero (startByte flen : ℕ) :
    sendFile 0 startByte flen =
      ⟨0, [0, 10, 20, 30, 40, 50, 60, 70, 80, 90, 100]⟩ := by
  simp [sendFile, sendLoop, emitDeciles, fread, pctDecile, BUFFER_SIZE]

theorem clientDownloadLoop_le (offers : List ℕ) :
    ∀ left pending written n : ℕ, written + pending + left ≤ n →
      clientDownloadLoop left pending written offers ≤ n := by
  induction offers with
  | nil =>
    intro left pending written n h
    simp only [clientDownloadLoop]
    split <;> omega
  | cons o rest ih =>
    intro left pending written n h
    simp only [clientDownloadLoop]
    split
    · omega
    · split
      · exact ih _ _ _ _ (by omega)
      · exact ih _ _ _ _ (by omega)

/-! ## Claim theorems -/

/-- C4: `byte_bound_check` fails exactly when `start > fileSize`, or
`end > fileSize`, or `start < 0`, or `end < start` with `end` explicitly
specified — where "explicitly specified" is the code's sentinel convention
`end ≠ -1`, the only representation of "unset" reaching the validator; and
in particular every negative specified end byte (`end < 0`, `end ≠ -1`) is
rejected rather than being given Python-slice semantics. -/
theorem C4_byteBoundCheck_iff (startByte endByte fileSize : ℤ) :
    (byteBoundCheck startByte endByte fileSize = false ↔
      startByte > fileSize ∨ endByte > fileSize ∨ startByte < 0 ∨
        (endByte < startByte ∧ endByte ≠ -1)) ∧
    (endByte < 0 → endByte ≠ -1 →
      byteBoundCheck startByte endByte fileSize = false) := by
  unfold byteBoundCheck
  constructor
  · split_ifs with h1 h2 h3 h4 <;> simp <;> omega
  · intro h5 h6
    split_ifs with h1 h2 h3 h4 <;> first | rfl | omega

/-- C4 witness: a negative specified end byte (`-2`) is rejected. -/
theorem C4_witness : byteBoundCheck 0 (-2) 10 = false :=
  (C4_byteBoundCheck_iff 0 (-2) 10).2 (by decide) (by decide)

/-- C9: when the specified end byte equals the start byte the validator
accepts the range (given `0 ≤ start ≤ fileSize`) and `calc_send_filesize`
computes `fileSize - start` — the rest of the file, not one byte. -/
theorem C9_endEqStart_restOfFile (startByte fileSize : ℤ)
    (h0 : 0 ≤ startByte) (h1 : startByte ≤ fileSize) :
    byteBoundCheck startByte startByte fileSize = true ∧
      calcSendFilesize fileSize startByte startByte = fileSize - startByte := by
  constructor
  · unfold byteBoundCheck
    split_ifs with h2 h3 h4 <;> first | rfl | omega
  · unfold calcSendFilesize
    simp

/-- C9 witness: `start = end = 3` in a 10-byte file is accepted and yields
effective size `7`. -/
theorem C9_witness :
    byteBoundCheck 3 3 10 = true ∧ calcSendFilesize 10 3 3 = 10 - 3 :=
  C9_endEqStart_restOfFile 3 10 (by decide) (by decide)

/-- C3 counterexample: the decoder produces no distinct "absent" value — an
unset start byte (the client renders unset arguments as the field `None`)
decodes to the same integer as an explicitly requested start of `0`, and an
unset end byte decodes to the same integer as an explicitly requested end of
`-1`. -/
theorem C3_counterexample :
    downloadRequestFields none none "f" = ["g", "f", "None", "None"] ∧
    decodeStartByte "None" = decodeStartByte "0" ∧
    decodeEndByte "None" = decodeEndByte "-1" := by
  refine ⟨by rfl, by rfl, by rfl⟩

/-- C3 amended: an absent or unparseable start-byte field decodes to the
plain integer `0` and an absent or unparseable end-byte field to `-1` (the
to-EOF sentinel), via the caught `ValueError`; no decoded value is distinct
from every integer. -/
theorem C3_amended_defaults : ∀ s : String, pyInt s = none →
    decodeStartByte s = 0 ∧ decodeEndByte s = -1 := by
  intro s h
  simp [decodeStartByte, decodeEndByte, h]

/-- C3 witness: the `None` field decodes to the defaults. -/
theorem C3_amended_witness :
    decodeStartByte "None" = 0 ∧ decodeEndByte "None" = -1 :=
  C3_amended_defaults "None" (by rfl)

/-- C10: in the client's download loop the bytes written never exceed the
declared size from the server's ready-to-send response, whatever chunk
sequence the socket delivers; the loop invariant
`written + pending + bytesLeft ≤ declaredSize` is preserved. -/
theorem C10_clientDownload_le (fileSize : ℕ) (offers : List ℕ) :
    clientDownload fileSize offers ≤ fileSize ∧
    (∀ left pending written : ℕ, written + pending + left ≤ fileSize →
      clientDownloadLoop left pending written offers ≤ fileSize) := by
  constructor
  · unfold clientDownload
    cases offers with
    | nil =>
      simp only [recvN]
      split_ifs <;> simp [clientDownloadLoop]
    | cons o rest =>
      simp only [recvN]
      split_ifs with h
      · exact clientDownloadLoop_le rest _ _ _ _ (by omega)
      · exact clientDownloadLoop_le rest _ _ _ _ (by omega)
  · intro l p w h
    exact clientDownloadLoop_le offers l p w fileSize h

/-- C10 witness: a concrete download (declared size 5, two offered chunks)
stays within the declared size, as does the loop from a mid-way state. -/
theorem C10_witness :
    clientDownload 5 [3, 4] ≤ 5 ∧ clientDownloadLoop 0 2 1 [3, 4] ≤ 5 :=
  ⟨(C10_clientDownload_le 5 [3, 4]).1,
    (C10_clientDownload_le 5 [3, 4]).2 0 2 1 (by decide)⟩

theorem sendFile_4097 :
    sendFile 4097 0 4097 = ⟨4097,
      [0, 10, 20, 30, 40, 50, 60, 70, 80, 90,
       100, 110, 120, 130, 140, 150, 160, 170, 180, 100]⟩ := by
  simp [sendFile, sendLoop, emitDeciles, fread, pctDecile, BUFFER_SIZE]

theorem sendFile_8192 :
    sendFile 8192 0 8192 =
      ⟨8192, [0, 10, 20, 30, 40, 50, 60, 70, 80, 90, 100]⟩ := by
  simp [sendFile, sendLoop, emitDeciles, fread, pctDecile, BUFFER_SIZE]

/-- C1: for the valid range `start = 0`, `end = 1` in a 10-byte file
(`0 ≤ start ≤ end < fileSize`) the server computes effective size
`end − start = 1` and `send_file` writes exactly 1 file byte to the
connection — not the `end − start + 1 = 2` bytes the inclusive-range
contract (the claim, and the source's own "inclusive byte range" docstring)
requires. -/
theorem C1_offByOne :
    calcSendFilesize 10 0 1 = 1 ∧
    (sendFile (calcSendFilesize 10 0 1).toNat 0 10).sent = 1 ∧
    calcSendFilesize 10 0 1 ≠ 1 - 0 + 1 := by
  refine ⟨by decide, ?_, by decide⟩
  have h : (calcSendFilesize 10 0 1).toNat = 1 := by decide
  rw [h]
  simp [sendFile, sendLoop, emitDeciles, fread, pctDecile, BUFFER_SIZE]

/-- C5: a completed full-file send of effective size 4097 prints the
percentage `100` twice, prints percentages exceeding 100 (110 … 180, from
the last partial chunk being accounted as a full buffer), and the printed
sequence is not monotonically non-decreasing (it ends `… 180, 100`). -/
theorem C5_violation :
    (sendFile 4097 0 4097).notifs.count 100 = 2 ∧
    (∃ p ∈ (sendFile 4097 0 4097).notifs, 100 < p) ∧
    ¬ List.Sorted (· ≤ ·) (sendFile 4097 0 4097).notifs := by
  rw [sendFile_4097]
  refine ⟨by decide, by decide, by decide⟩

/-- C6: the first chunk of an 8192-byte transfer raises the floored
percentage from 0 to 50, yet the code's notifications for it are labelled
0 %, 10 %, 20 %, 30 %, 40 % — `percent_printed` is printed before being
incremented — so the very first notification of the session names 0 %,
which under the claim (each notification names the decile boundary just
crossed) could never be emitted. -/
theorem C6_violation :
    (sendFile 8192 0 8192).notifs =
      [0, 10, 20, 30, 40, 50, 60, 70, 80, 90, 100] ∧
    (sendFile 8192 0 8192).notifs.head? = some 0 := by
  rw [sendFile_8192]
  exact ⟨rfl, rfl⟩

/-- C7 counterexample: a zero-length transfer emits eleven progress
notifications (the ladder 0 %, 10 %, …, 90 % followed by 100 %), not
exactly one. -/
theorem C7_counterexample :
    (sendFile 0 0 0).notifs ≠ [100] ∧ (sendFile 0 0 0).notifs.length = 11 := by
  rw [sendFile_total_zero]
  exact ⟨by decide, by decide⟩

/-- C7 amended: a zero-effective-size send reads and sends no bytes, emits
the ladder 0 %, 10 %, …, 90 % followed by a single final 100 % (the value 100 emitted
exactly once, as the last notification), completes without dividing by zero
(the `ZeroDivisionError` branch of the percentage computation), and the
download of an empty hosted file completes with the final `done` response. -/
theorem C7_amended :
    (∀ startByte flen : ℕ,
      sendFile 0 startByte flen =
        ⟨0, [0, 10, 20, 30, 40, 50, 60, 70, 80, 90, 100]⟩ ∧
      (sendFile 0 startByte flen).notifs.count 100 = 1 ∧
      (sendFile 0 startByte flen).notifs.getLast? = some 100) ∧
    handle (singleFS "f" 0) ["g", "f", "None", "None"] 0 =
      .ok ([.readyToSend 0, .fileData 0, .done "PROCESS COMPLETE"],
        singleFS "f" 0, false) := by
  constructor
  · intro s fl
    refine ⟨sendFile_total_zero s fl, ?_, ?_⟩ <;> rw [sendFile_total_zero] <;> decide
  · simp [handle, getInitCmd, processInitCmd, idx, decodeStartByte, decodeEndByte,
      singleFS, byteBoundCheck, calcSendFilesize, sendFile_total_zero,
      pyInt_NoneStr, bind, Except.bind]

/-- C8: an upload request (well-formed: parseable declared size) naming a
file that exists on the server is answered with the
`FILE EXISTS ON SERVER. RENAME FILE.` error followed by the final failure
response; `receive_file` is never invoked and the filesystem is returned
unchanged. -/
theorem C8_uploadExisting (fs : FS) (fn szs : String) (rest : List String)
    (cb : ℕ) (hex : (fs.files fn).isSome = true)
    (hsz : (pyInt szs).isSome = true) :
    handle fs ("w" :: fn :: szs :: rest) cb =
      .ok ([.error "FILE EXISTS ON SERVER. RENAME FILE.",
            .error "Something went wrong."], fs, false) := by
  obtain ⟨n, hn⟩ := Option.isSome_iff_exists.mp hsz
  simp [handle, getInitCmd, processInitCmd, idx, hn, hex, bind, Except.bind]

/-- C8 witness: uploading `a` (declared size 5) to a server already hosting
a 7-byte file `a`. -/
theorem C8_witness :
    handle (singleFS "a" 7) ("w" :: "a" :: "5" :: []) 0 =
      .ok ([.error "FILE EXISTS ON SERVER. RENAME FILE.",
            .error "Something went wrong."], singleFS "a" 7, false) :=
  C8_uploadExisting (singleFS "a" 7) "a" "5" [] 0 (by rfl) (by rfl)

/-- An `Except` value whose `isOk` test succeeds is an `ok`. -/
theorem exceptOkExists {α : Type} {e : Except PyErr α} (h : e.isOk = true) :
    ∃ v, e = .ok v := by
  cases e with
  | error err => simp [Except.isOk, Except.toBool] at h
  | ok v => exact ⟨v, rfl⟩

/-- Whenever `handle` completes without an uncaught exception, its last
message on the connection is a final (`d`/`e`) response: the handler
appends exactly one final response to whatever the flow already sent. -/
theorem handle_ok_lastFinal (fs : FS) (fields : List String) (cb : ℕ)
    (msgs : List Msg) (fs2 : FS) (ri : Bool)
    (h : handle fs fields cb = .ok (msgs, fs2, ri)) :
    ∃ pre m, msgs = pre ++ [m] ∧ m.isFinal = true := by
  unfold handle at h
  cases hg : getInitCmd fields with
  | error e => rw [hg] at h; simp at h
  | ok o =>
    rw [hg] at h
    cases o with
    | none =>
      simp only [Except.ok.injEq, Prod.mk.injEq] at h
      exact ⟨[], .error "Unknown Initial Command", by simp [← h.1], rfl⟩
    | some flds =>
      dsimp only at h
      cases hp : processInitCmd fs flds cb with
      | error e => rw [hp] at h; simp at h
      | ok res =>
        rw [hp] at h
        obtain ⟨b, out⟩ := res
        cases b with
        | true =>
          simp only [Except.ok.injEq, Prod.mk.injEq] at h
          exact ⟨out.msgs, .done "PROCESS COMPLETE", h.1.symm, rfl⟩
        | false =>
          simp only [Except.ok.injEq, Prod.mk.injEq] at h
          exact ⟨out.msgs, .error "Something went wrong.", h.1.symm, rfl⟩

/-- On every well-formed initial message `handle` completes without an
uncaught exception, whatever the filesystem and client payload. -/
theorem goodFields_handle_isOk (fs : FS) (fields : List String) (cb : ℕ)
    (hg : goodFields fields = true) :
    (handle fs fields cb).isOk = true := by
  cases fields with
  | nil => simp [goodFields] at hg
  | cons c rest =>
    by_cases h0 : c = ""
    · simp [goodFields, h0] at hg
    by_cases hw : c = "w"
    · subst hw
      cases rest with
      | nil => simp [goodFields] at hg
      | cons fn rest2 =>
        cases rest2 with
        | nil => simp [goodFields] at hg
        | cons szs rest3 =>
          have hsz : (pyInt szs).isSome = true := by
            simpa [goodFields] using hg
          obtain ⟨z, hz⟩ := Option.isSome_iff_exists.mp hsz
          by_cases hex : (fs.files fn).isSome = true
          · simp [handle, getInitCmd, processInitCmd, idx, hz, hex,
              bind, Except.bind, Except.isOk, Except.toBool]
          · simp only [Bool.not_eq_true] at hex
            simp [handle, getInitCmd, processInitCmd, idx, hz, hex,
              bind, Except.bind, Except.isOk, Except.toBool]
    by_cases hgg : c = "g"
    · subst hgg
      cases rest with
      | nil => simp [goodFields] at hg
      | cons fn rest2 =>
        cases rest2 with
        | nil => simp [goodFields] at hg
        | cons sbs rest3 =>
          cases rest3 with
          | nil => simp [goodFields] at hg
          | cons ebs rest4 =>
            cases hfn : fs.files fn with
            | none =>
              simp [handle, getInitCmd, processInitCmd, idx, hfn,
                bind, Except.bind, Except.isOk, Except.toBool]
            | some flen =>
              by_cases hbb : byteBoundCheck (decodeStartByte sbs)
                  (decodeEndByte ebs) (flen : ℤ) = true
              · simp [handle, getInitCmd, processInitCmd, idx, hfn, hbb,
                  bind, Except.bind, Except.isOk, Except.toBool]
              · simp only [Bool.not_eq_true] at hbb
                simp [handle, getInitCmd, processInitCmd, idx, hfn, hbb,
                  bind, Except.bind, Except.isOk, Except.toBool]
    · have hcd : c.data ≠ [] := by
        intro hnil
        exact h0 (String.ext hnil)
      obtain ⟨ch, tl, hct⟩ := List.exists_cons_of_ne_nil hcd
      simp only [goodFields, if_neg h0, if_neg hw, if_neg hgg,
        Bool.not_eq_true', Bool.or_eq_false_iff, decide_eq_false_iff_not] at hg
      rw [hct] at hg
      simp only [List.headD_cons] at hg
      simp [handle, getInitCmd, hct, hg.1, hg.2, Except.isOk, Except.toBool]

/-- C2 amended: for every initial message that is non-empty and either
carries an unrecognized tag character, or is a well-formed `w` command
(at least three fields, parseable size), or a well-formed `g` command
(at least four fields), the server completes without an uncaught exception
and the last message it sends is the single final response — `d` on success
or `e` on failure — after which it closes; the remaining malformed messages
(empty, a `w` command with a missing or unparseable numeric field, a `g`
command with fewer than four fields, or a first field merely beginning with
`w`/`g`) instead raise an uncaught exception, and no final message is
sent. -/
theorem C2_amended (fs : FS) (fields : List String) (cb : ℕ)
    (hg : goodFields fields = true) :
    ∃ v, handle fs fields cb = .ok v ∧
      ∃ pre m, v.1 = pre ++ [m] ∧ m.isFinal = true := by
  obtain ⟨v, hv⟩ := exceptOkExists (goodFields_handle_isOk fs fields cb hg)
  obtain ⟨msgs, fs2, ri⟩ := v
  obtain ⟨pre, m, h1, h2⟩ := handle_ok_lastFinal fs fields cb msgs fs2 ri hv
  exact ⟨(msgs, fs2, ri), hv, pre, m, h1, h2⟩

/-- C2 witness: an unknown-tag message on an empty filesystem gets a final
response as its last message. -/
theorem C2_amended_witness :
    goodFields ["x"] = true ∧
    ∃ v, handle emptyFS ["x"] 0 = .ok v ∧
      ∃ pre m, v.1 = pre ++ [m] ∧ m.isFinal = true :=
  ⟨by decide, C2_amended emptyFS ["x"] 0 (by decide)⟩

/-- C2 counterexample: the empty initial message (`''.split(SEP) = ['']`)
dies of an uncaught `IndexError` before any response is sent, and an upload
command whose size field does not parse dies of an uncaught `ValueError`
after sending nothing — in both cases the connection is closed with no
final message, contradicting the claim. -/
theorem C2_counterexample :
    handle emptyFS [""] 0 = .error .indexError ∧
    handle emptyFS ["w", "f", "12x"] 0 = .error .valueError := by
  exact ⟨rfl, rfl⟩

end FileServer
